import Mathlib

/-!
Verification of the save-storage subsystem of the web frontend
(`frontend/web/crate/src/lib.rs`): save profile catalog, save classifier,
storage device factory and the session-manager operations built on them.

Machine integers are modelled as `Nat` (with explicit `% 2 ^ 32` where u32
overflow semantics matter), byte buffers as `List Nat`, and fallible calls
as `Option`. Parts of the repository that live in the `dust_core` crate
(not under the frontend sources) are modelled from the spec and marked as
such in their doc comments.
-/

set_option maxRecDepth 4096

namespace Dust

/-- Enum `SaveType` from `frontend/web/crate/src/lib.rs`: the ten storage-chip
profiles plus `None`. -/
inductive SaveType where
  | None
  | Eeprom4k
  | EepromFram64k
  | EepromFram512k
  | EepromFram1m
  | Flash2m
  | Flash4m
  | Flash8m
  | Nand64m
  | Nand128m
  | Nand256m
deriving DecidableEq, Fintype, Repr

/-- Function `SaveType::expected_len`: the declared byte capacity of each profile
(`None` has no capacity). -/
def SaveType.expected_len : SaveType → Option Nat
  | SaveType.None => Option.none
  | SaveType.Eeprom4k => some 0x200
  | SaveType.EepromFram64k => some 0x2000
  | SaveType.EepromFram512k => some 0x10000
  | SaveType.EepromFram1m => some 0x20000
  | SaveType.Flash2m => some 0x40000
  | SaveType.Flash4m => some 0x80000
  | SaveType.Flash8m => some 0x100000
  | SaveType.Nand64m => some 0x800000
  | SaveType.Nand128m => some 0x1000000
  | SaveType.Nand256m => some 0x2000000

/-- Function `SaveType::from_save_len`: reverse lookup of a profile from a byte
length. -/
def SaveType.from_save_len : Nat → Option SaveType
  | 0x200 => some SaveType.Eeprom4k
  | 0x2000 => some SaveType.EepromFram64k
  | 0x10000 => some SaveType.EepromFram512k
  | 0x20000 => some SaveType.EepromFram1m
  | 0x40000 => some SaveType.Flash2m
  | 0x80000 => some SaveType.Flash4m
  | 0x100000 => some SaveType.Flash8m
  | 0x800000 => some SaveType.Nand64m
  | 0x1000000 => some SaveType.Nand128m
  | 0x2000000 => some SaveType.Nand256m
  | _ => Option.none

/-- The save classifier: the `let save_type = ...` block of
`create_emu_state` (lib.rs lines 243-295), as a function of the optional
hint and the optional existing image's length (the image's length is its
only attribute the block reads). -/
def resolve_save_type (save_type : Option SaveType) (save_contents_len : Option Nat) :
    SaveType :=
  match save_contents_len with
  | some len =>
    match save_type with
    | some st =>
      if st.expected_len ≠ some len then
        match SaveType.from_save_len len with
        | some detected_save_type => detected_save_type
        | Option.none => st
      else
        st
    | Option.none => (SaveType.from_save_len len).getD SaveType.None
  | Option.none => save_type.getD SaveType.None

/-- The classifier resolution order exactly as the claim words it:
keep a hint matching the image length, otherwise prefer the profile
detected from the image length, otherwise keep the hint; without a hint
use detection with `None` fallback; without an image use the hint with
`None` fallback. -/
def resolve_save_type_claim (hint : Option SaveType) (image_len : Option Nat) :
    SaveType :=
  match image_len, hint with
  | some len, some h =>
    if h.expected_len = some len then h
    else
      match SaveType.from_save_len len with
      | some p => p
      | Option.none => h
  | some len, Option.none =>
    match SaveType.from_save_len len with
    | some p => p
    | Option.none => SaveType.None
  | Option.none, some h => h
  | Option.none, Option.none => SaveType.None

/-- C1: the save classifier is exactly the four-case function of
(optional hint, optional image length) described by the spec, and in
particular hint = Flash2m with image length 512 resolves to Eeprom4k. -/
theorem resolve_save_type_matches_claim :
    (∀ (hint : Option SaveType) (len : Option Nat),
      resolve_save_type hint len = resolve_save_type_claim hint len)
    ∧ resolve_save_type (some SaveType.Flash2m) (some 512) = SaveType.Eeprom4k := by
  constructor
  · intro hint len
    cases len with
    | none => cases hint <;> rfl
    | some l =>
      cases hint with
      | none =>
        simp only [resolve_save_type, resolve_save_type_claim]
        cases SaveType.from_save_len l <;> rfl
      | some st =>
        by_cases h : st.expected_len = some l <;>
          cases hfl : SaveType.from_save_len l <;>
            simp [resolve_save_type, resolve_save_type_claim, h, hfl]
  · decide

/-- C5: round trip `from_save_len (expected_len p) = p` for every profile
except `None`, and no two distinct profiles share a declared capacity. -/
theorem catalog_round_trip_and_injective :
    (∀ p : SaveType, p ≠ SaveType.None →
      SaveType.from_save_len (p.expected_len.getD 0) = some p)
    ∧ (∀ p q : SaveType, p ≠ SaveType.None → q ≠ SaveType.None → p ≠ q →
      p.expected_len ≠ q.expected_len) := by
  constructor
  · decide
  · decide

/-- Witness for C5 at concrete profiles. -/
theorem catalog_round_trip_and_injective_witness :
    SaveType.from_save_len (SaveType.Eeprom4k.expected_len.getD 0) = some SaveType.Eeprom4k
    ∧ SaveType.Flash2m.expected_len ≠ SaveType.Flash4m.expected_len :=
  ⟨catalog_round_trip_and_injective.1 SaveType.Eeprom4k (by decide),
   catalog_round_trip_and_injective.2 SaveType.Flash2m SaveType.Flash4m
     (by decide) (by decide) (by decide)⟩

/-- C6: `expected_len` returns no value for `None` and exactly the spec
table's byte capacities for the other ten profiles. -/
theorem expected_len_table :
    SaveType.None.expected_len = Option.none
    ∧ SaveType.Eeprom4k.expected_len = some 512
    ∧ SaveType.EepromFram64k.expected_len = some 8192
    ∧ SaveType.EepromFram512k.expected_len = some 65536
    ∧ SaveType.EepromFram1m.expected_len = some 131072
    ∧ SaveType.Flash2m.expected_len = some 262144
    ∧ SaveType.Flash4m.expected_len = some 524288
    ∧ SaveType.Flash8m.expected_len = some 1048576
    ∧ SaveType.Nand64m.expected_len = some 8388608
    ∧ SaveType.Nand128m.expected_len = some 16777216
    ∧ SaveType.Nand256m.expected_len = some 33554432 := by
  refine ⟨rfl, ?_, ?_, ?_, ?_, ?_, ?_, ?_, ?_, ?_, ?_⟩ <;> rfl

/-- The DS slot SPI storage device: a tagged variant mirroring the device
families constructed by `create_emu_state` (lib.rs lines 297-365):
`Empty` (`ds_slot::spi::Empty`), the small EEPROM (`eeprom_4k::Eeprom4k`),
the EEPROM/FRAM family (`eeprom_fram::EepromFram`) and the FLASH family
(`flash::Flash`, carrying the infra-red flag). Each non-empty variant
carries its backing buffer. -/
inductive DsSlotSpi where
  | Empty
  | Eeprom4k (contents : List Nat)
  | EepromFram (contents : List Nat)
  | Flash (contents : List Nat) (has_ir : Bool)
deriving DecidableEq, Repr

/-- Modelled from the spec: `contents()` / `raw_export` of the dust_core
SPI devices (dust_core is repository code not under src/) returns the
whole backing buffer, or a zero-length buffer for `Empty`. -/
def DsSlotSpi.raw_export : DsSlotSpi → List Nat
  | DsSlotSpi.Empty => []
  | DsSlotSpi.Eeprom4k contents => contents
  | DsSlotSpi.EepromFram contents => contents
  | DsSlotSpi.Flash contents _ => contents

/-- The save-contents normalization of `create_emu_state`
(lib.rs lines 305-317): an existing image is kept as-is when its length
matches the expected length, otherwise copied into a zeroed buffer of the
expected length (`copy_len = min (image length) expected_len` bytes are
copied, so the image is truncated or zero-padded); a missing image becomes
a zeroed buffer of the expected length (`SaveContents::New`). -/
def normalized_save_contents (expected_len : Nat) (save_contents : Option (List Nat)) :
    List Nat :=
  match save_contents with
  | some sc =>
    if sc.length ≠ expected_len then
      let copy_len := min sc.length expected_len
      sc.take copy_len ++ List.replicate (expected_len - copy_len) 0
    else
      sc
  | Option.none => List.replicate expected_len 0

/-- The storage device factory: the `ds_slot_spi` construction of
`create_emu_state` (lib.rs lines 297-365), paired with the list of
diagnostic messages this block emits (its `slog::error!` call sites). -/
def make_ds_slot_spi (save_type : SaveType) (save_contents : Option (List Nat))
    (has_ir : Bool) : DsSlotSpi × List String :=
  if save_type = SaveType.None then
    (DsSlotSpi.Empty, [])
  else
    -- save_type.expected_len().unwrap(): never `none` here, since only
    -- SaveType.None lacks an expected length.
    let expected_len := save_type.expected_len.getD 0
    let contents := normalized_save_contents expected_len save_contents
    match save_type with
    | SaveType.None => (DsSlotSpi.Empty, [])  -- unreachable!(), guarded above
    | SaveType.Eeprom4k => (DsSlotSpi.Eeprom4k contents, [])
    | SaveType.EepromFram64k | SaveType.EepromFram512k | SaveType.EepromFram1m =>
      (DsSlotSpi.EepromFram contents, [])
    | SaveType.Flash2m | SaveType.Flash4m | SaveType.Flash8m =>
      (DsSlotSpi.Flash contents has_ir, [])
    | SaveType.Nand64m | SaveType.Nand128m | SaveType.Nand256m =>
      (DsSlotSpi.Empty,
        ["TODO: NAND saves are currently unsupported, falling back to no save file."])

theorem normalized_save_contents_length (expected_len : Nat)
    (save_contents : Option (List Nat)) :
    (normalized_save_contents expected_len save_contents).length = expected_len := by
  cases save_contents with
  | none => simp [normalized_save_contents]
  | some sc =>
    by_cases h : sc.length = expected_len
    · simp [normalized_save_contents, h]
    · simp [normalized_save_contents, h]

theorem normalized_save_contents_short (expected_len : Nat) (sc : List Nat)
    (h : sc.length < expected_len) :
    normalized_save_contents expected_len (some sc)
      = sc ++ List.replicate (expected_len - sc.length) 0 := by
  have hne : sc.length ≠ expected_len := Nat.ne_of_lt h
  have hmin : min sc.length expected_len = sc.length := Nat.min_eq_left (Nat.le_of_lt h)
  simp [normalized_save_contents, hne, hmin]

theorem normalized_save_contents_long (expected_len : Nat) (sc : List Nat)
    (h : expected_len < sc.length) :
    normalized_save_contents expected_len (some sc) = sc.take expected_len := by
  have hne : sc.length ≠ expected_len := Nat.ne_of_gt h
  have hmin : min sc.length expected_len = expected_len := Nat.min_eq_right (Nat.le_of_lt h)
  simp [normalized_save_contents, hne, hmin]

theorem normalized_save_contents_exact (expected_len : Nat) (sc : List Nat)
    (h : sc.length = expected_len) :
    normalized_save_contents expected_len (some sc) = sc := by
  simp [normalized_save_contents, h]

theorem make_ds_slot_spi_raw_export (st : SaveType) (img : Option (List Nat)) (ir : Bool)
    (h0 : st ≠ SaveType.None) (h1 : st ≠ SaveType.Nand64m)
    (h2 : st ≠ SaveType.Nand128m) (h3 : st ≠ SaveType.Nand256m) :
    (make_ds_slot_spi st img ir).1.raw_export
      = normalized_save_contents (st.expected_len.getD 0) img := by
  cases st <;> simp_all [make_ds_slot_spi, DsSlotSpi.raw_export]

/-- C3 counterexample: for the resolved profile Nand64m (a profile other
than None) with no supplied image, the constructed storage device is
`Empty`, whose backing buffer length is 0, not Nand64m's declared
capacity of 8388608 bytes. -/
theorem factory_nand_buffer_counterexample :
    ¬ ((make_ds_slot_spi SaveType.Nand64m Option.none false).1.raw_export.length
        = SaveType.Nand64m.expected_len.getD 0) := by
  decide

/-- C3 (amended): for every resolved profile other than None and the NAND
family (whose members yield an Empty device) and every optionally supplied
image, the constructed device's backing buffer has length exactly the
profile's declared capacity: a shorter image is zero-padded, a longer one
truncated to the first capacity bytes, an exact one used as-is. -/
theorem factory_buffer_sizing (st : SaveType) (img : Option (List Nat)) (ir : Bool)
    (h0 : st ≠ SaveType.None) (h1 : st ≠ SaveType.Nand64m)
    (h2 : st ≠ SaveType.Nand128m) (h3 : st ≠ SaveType.Nand256m) :
    (make_ds_slot_spi st img ir).1.raw_export.length = st.expected_len.getD 0
    ∧ (∀ sc, img = some sc → sc.length < st.expected_len.getD 0 →
        (make_ds_slot_spi st img ir).1.raw_export
          = sc ++ List.replicate (st.expected_len.getD 0 - sc.length) 0)
    ∧ (∀ sc, img = some sc → st.expected_len.getD 0 < sc.length →
        (make_ds_slot_spi st img ir).1.raw_export = sc.take (st.expected_len.getD 0))
    ∧ (∀ sc, img = some sc → sc.length = st.expected_len.getD 0 →
        (make_ds_slot_spi st img ir).1.raw_export = sc) := by
  have hexp := make_ds_slot_spi_raw_export st img ir h0 h1 h2 h3
  refine ⟨?_, ?_, ?_, ?_⟩
  · rw [hexp]; exact normalized_save_contents_length _ _
  · intro sc hsc hlt
    rw [hexp, hsc]; exact normalized_save_contents_short _ _ hlt
  · intro sc hsc hgt
    rw [hexp, hsc]; exact normalized_save_contents_long _ _ hgt
  · intro sc hsc heq
    rw [hexp, hsc]; exact normalized_save_contents_exact _ _ heq

/-- Witness for C3 (amended) at profile Eeprom4k with a 511-byte image. -/
theorem factory_buffer_sizing_witness :
    (make_ds_slot_spi SaveType.Eeprom4k (some (List.replicate 511 1)) false).1.raw_export.length
      = SaveType.Eeprom4k.expected_len.getD 0
    ∧ (make_ds_slot_spi SaveType.Eeprom4k (some (List.replicate 511 1)) false).1.raw_export
      = List.replicate 511 1 ++ List.replicate (SaveType.Eeprom4k.expected_len.getD 0 - 511) 0 :=
  ⟨(factory_buffer_sizing SaveType.Eeprom4k (some (List.replicate 511 1)) false
      (by decide) (by decide) (by decide) (by decide)).1,
   (factory_buffer_sizing SaveType.Eeprom4k (some (List.replicate 511 1)) false
      (by decide) (by decide) (by decide) (by decide)).2.1
     (List.replicate 511 1) rfl (by simp [SaveType.expected_len])⟩

/-- C4: for every resolved profile in the NAND family, the factory
substitutes an Empty device and emits a diagnostic; it is a total function
on this branch, so no error or abort escalates to the caller. -/
theorem factory_nand_substitution (st : SaveType) (img : Option (List Nat)) (ir : Bool)
    (h : st = SaveType.Nand64m ∨ st = SaveType.Nand128m ∨ st = SaveType.Nand256m) :
    (make_ds_slot_spi st img ir).1 = DsSlotSpi.Empty
    ∧ (make_ds_slot_spi st img ir).2
        = ["TODO: NAND saves are currently unsupported, falling back to no save file."] := by
  rcases h with h | h | h <;> subst h <;> exact ⟨rfl, rfl⟩

/-- Witness for C4 at profile Nand64m with no image. -/
theorem factory_nand_substitution_witness :
    (make_ds_slot_spi SaveType.Nand64m Option.none false).1 = DsSlotSpi.Empty
    ∧ (make_ds_slot_spi SaveType.Nand64m Option.none false).2
        = ["TODO: NAND saves are currently unsupported, falling back to no save file."] :=
  factory_nand_substitution SaveType.Nand64m Option.none false (Or.inl rfl)

/-- Enum `Model` from dust_core, the target hardware model (the frontend's
`WbgModel` maps onto it one-to-one). -/
inductive Model where
  | Ds
  | Lite
  | Ique
  | IqueLite
  | Dsi
deriving DecidableEq, Repr

/-- The DS slot SPI peripheral: the constructed device (carrying the
backing buffer) together with transient protocol state. Modelled from the
spec: the dust_core SPI peripheral (repository code not under src/) holds
per-session protocol state besides the backing buffer. -/
structure SpiState where
  device : DsSlotSpi
  transient : Nat
deriving DecidableEq, Repr

/-- Modelled from the spec: `spi.reset()` in dust_core rebuilds the device
object with transient protocol state cleared, while the same backing bytes
are carried through. -/
def SpiState.reset (s : SpiState) : SpiState :=
  { device := s.device, transient := 0 }

/-- Modelled from the spec: replacing the backing buffer exposed by
`contents_mut()` keeps the device variant and swaps the buffer (the Empty
device exposes a zero-length buffer, so its contents stay empty). -/
def DsSlotSpi.set_contents : DsSlotSpi → List Nat → DsSlotSpi
  | DsSlotSpi.Empty, _ => DsSlotSpi.Empty
  | DsSlotSpi.Eeprom4k _, c => DsSlotSpi.Eeprom4k c
  | DsSlotSpi.EepromFram _, c => DsSlotSpi.EepromFram c
  | DsSlotSpi.Flash _ ir, c => DsSlotSpi.Flash c ir

/-- The device's declared capacity: the length of its backing buffer. For
devices built by the factory this equals the resolved profile's declared
capacity (`factory_buffer_sizing`); the Empty device has capacity 0. -/
def DsSlotSpi.declared_capacity (d : DsSlotSpi) : Nat :=
  d.raw_export.length

/-- The session state: the `EmuState` wrapper plus the parts of the live
`Emu` handle that the verified operations touch (ROM contents, DS slot
SPI peripheral, key and touch state, configuration). -/
structure EmuModel where
  model : Model
  rom : List Nat
  ds_slot_spi : SpiState
  direct_boot : Bool
  keys : Nat
  touch : Option (Nat × Nat)
deriving DecidableEq, Repr

/-- Modelled from the spec: `Uint8Array::copy_to` as used by `load_save`
requires the source length to equal the destination buffer's length and
otherwise rejects the call (reported to the caller) before any byte is
copied; on success the destination holds exactly the source bytes. -/
def copy_to (src dst : List Nat) : Option (List Nat) :=
  if src.length = dst.length then some src else Option.none

/-- Method `EmuState::load_save` (lib.rs lines 154-156): copy the supplied bytes
over the active device's backing buffer; a length mismatch rejects the
call and produces no new session state. -/
def EmuModel.load_save (s : EmuModel) (bytes : List Nat) : Option EmuModel :=
  match copy_to bytes s.ds_slot_spi.device.raw_export with
  | some new_contents =>
    some { s with ds_slot_spi :=
      { s.ds_slot_spi with device := s.ds_slot_spi.device.set_contents new_contents } }
  | Option.none => Option.none

/-- Method `EmuState::export_save` (lib.rs lines 158-160): a copy of the active
device's backing buffer. -/
def EmuModel.export_save (s : EmuModel) : List Nat :=
  s.ds_slot_spi.device.raw_export

/-- Modelled from the spec: `Emu::press_keys` in dust_core sets the given
key bits in the current key state (u32 bitmasks). -/
def press_keys (state mask : Nat) : Nat :=
  (state ||| mask) % 2 ^ 32

/-- Modelled from the spec: `Emu::release_keys` in dust_core clears the
given key bits in the current key state (u32 bitmasks; the state is
intersected with the 32-bit complement of the mask). -/
def release_keys (state mask : Nat) : Nat :=
  state &&& ((mask % 2 ^ 32) ^^^ (2 ^ 32 - 1))

/-- Method `EmuState::update_input` (lib.rs lines 162-166): press the keys of the
pressed mask, then release the keys of the released mask. Each mask is
first restricted to the valid key bits (`Keys::from_bits_truncate`; the
valid-bit set lives in dust_core and is kept abstract as `valid`). -/
def update_input (valid : Nat) (state pressed released : Nat) : Nat :=
  release_keys (press_keys state (pressed &&& valid)) (released &&& valid)

/-- Function `Option::zip` from the Rust standard library, as used by
`update_touch`: a pair when both operands are present, nothing
otherwise. -/
def option_zip (x y : Option Nat) : Option (Nat × Nat) :=
  match x, y with
  | some a, some b => some (a, b)
  | _, _ => Option.none

/-- Method `EmuState::update_touch` (lib.rs lines 168-175): with both coordinates
present (`x.zip(y)`) the touch position is set; otherwise the touch is
ended. `set_touch_pos` and `end_touch` are dust_core code not under src/,
modelled from the spec: they set and clear the active touch coordinate. -/
def EmuModel.update_touch (s : EmuModel) (x y : Option Nat) : EmuModel :=
  match option_zip x y with
  | some p => { s with touch := some p }
  | Option.none => { s with touch := Option.none }

/-- Method `EmuState::reset` (lib.rs lines 126-152): rebuild the emulator from
the current handle's firmware, ROM contents, SPI peripheral
(`spi.reset()`) and renderers, with direct boot enabled; the fresh handle
starts with no keys pressed and no active touch. -/
def EmuModel.reset (s : EmuModel) : EmuModel :=
  { s with ds_slot_spi := s.ds_slot_spi.reset,
           direct_boot := true, keys := 0, touch := Option.none }

/-- Function `u32::next_power_of_two` as applied to the ROM length
(lib.rs line 231): 1 for lengths 0 and 1, otherwise the least power of
two not below the length. -/
def next_power_of_two (n : Nat) : Nat :=
  if n ≤ 1 then 1 else 2 ^ ((n - 1).log2 + 1)

theorem le_next_power_of_two (n : Nat) : n ≤ next_power_of_two n := by
  unfold next_power_of_two
  by_cases h : n ≤ 1
  · simp [h]
  · simp [h]
    have := Nat.lt_log2_self (n := n - 1)
    omega

/-- Function `create_emu_state` (lib.rs lines 193-406), restricted to the modelled
state: pad the ROM with zeroes up to the next power of two, validate its
size, then classify the save type and build the storage device.
`ds_slot::rom::is_valid_size` is dust_core code not under src/ and the
spec does not fix the constraint, so it is kept abstract as the
`is_valid_size` parameter; the fatal `panic!("Invalid ROM size")` is
modelled as `Option.none` - no session is returned. -/
def create_emu_state (is_valid_size : Nat → Model → Bool) (rom_arr : List Nat)
    (save_contents_arr : Option (List Nat)) (save_type : Option SaveType)
    (has_ir : Bool) (model : Model) : Option EmuModel :=
  let rom := rom_arr ++ List.replicate (next_power_of_two rom_arr.length - rom_arr.length) 0
  if is_valid_size rom.length model then
    let st := resolve_save_type save_type (save_contents_arr.map List.length)
    let spi := (make_ds_slot_spi st save_contents_arr has_ir).1
    some { model := model, rom := rom,
           ds_slot_spi := { device := spi, transient := 0 },
           direct_boot := true, keys := 0, touch := Option.none }
  else
    Option.none

theorem raw_export_set_contents (d : DsSlotSpi) (c : List Nat)
    (h : c.length = d.declared_capacity) :
    (d.set_contents c).raw_export = c := by
  cases d with
  | Empty =>
    have hc : c = [] := List.length_eq_zero.mp h
    subst hc
    rfl
  | Eeprom4k contents => rfl
  | EepromFram contents => rfl
  | Flash contents ir => rfl

/-- C2: a `load_save` call whose byte buffer's length differs from the
active device's declared capacity is rejected and yields no new session
state (so the backing buffer stays untouched); a new session state exists
only for a buffer of exactly the declared capacity, and then the backing
buffer holds exactly the supplied bytes. -/
theorem load_save_exact_length (s : EmuModel) (bytes : List Nat) :
    (bytes.length ≠ s.ds_slot_spi.device.declared_capacity →
      s.load_save bytes = Option.none)
    ∧ (∀ s2, s.load_save bytes = some s2 →
      bytes.length = s.ds_slot_spi.device.declared_capacity
      ∧ s2.export_save = bytes
      ∧ s2.ds_slot_spi.device
          = s.ds_slot_spi.device.set_contents bytes) := by
  constructor
  · intro hne
    simp only [EmuModel.load_save, copy_to, DsSlotSpi.declared_capacity] at hne ⊢
    rw [if_neg hne]
  · intro s2 hs
    by_cases h : bytes.length = s.ds_slot_spi.device.raw_export.length
    · simp [EmuModel.load_save, copy_to, h] at hs
      refine ⟨h, ?_, ?_⟩
      · rw [← hs]
        exact raw_export_set_contents _ _ h
      · rw [← hs]
    · simp [EmuModel.load_save, copy_to, h] at hs

/-- Witness for C2 on a concrete 2-byte EEPROM-backed session: loading a
1-byte buffer is rejected. -/
theorem load_save_exact_length_witness :
    EmuModel.load_save
      { model := Model.Ds, rom := [], ds_slot_spi := { device := DsSlotSpi.Eeprom4k [1, 2], transient := 0 },
        direct_boot := true, keys := 0, touch := Option.none } [5]
      = Option.none :=
  (load_save_exact_length
    { model := Model.Ds, rom := [], ds_slot_spi := { device := DsSlotSpi.Eeprom4k [1, 2], transient := 0 },
      direct_boot := true, keys := 0, touch := Option.none } [5]).1 (by decide)

/-- C7: a key bit set in both the pressed and the released mask ends up
released, because the release mask is applied after the press mask. -/
theorem update_input_release_precedence (valid state pressed released i : Nat)
    (hp : pressed.testBit i = true) (hr : released.testBit i = true)
    (hv : valid.testBit i = true) :
    (update_input valid state pressed released).testBit i = false := by
  simp only [update_input, release_keys, press_keys, Nat.testBit_and, Nat.testBit_xor,
    Nat.testBit_mod_two_pow, Nat.testBit_two_pow_sub_one, hr, hv,
    Bool.and_true, Bool.and_self, Bool.xor_self, Bool.and_false]

/-- Witness for C7: pressing and releasing key bit 0 in the same call
leaves it released. -/
theorem update_input_release_precedence_witness :
    (update_input 1 0 1 1).testBit 0 = false :=
  update_input_release_precedence 1 0 1 1 0 (by decide) (by decide) (by decide)

/-- C8: the bytes returned by `export_save` immediately after `reset`
equal the bytes it returned immediately before - the rebuilt device
carries the same backing bytes. -/
theorem reset_preserves_save_contents (s : EmuModel) :
    (EmuModel.reset s).export_save = s.export_save :=
  rfl

/-- C9: build pads the ROM length up to the next power of two before
validating it; if the model's ROM-size constraint rejects the padded
length no session is returned, and a returned session holds a ROM of the
padded length. -/
theorem rom_padding_and_validation (is_valid_size : Nat → Model → Bool)
    (rom_arr : List Nat) (save_contents_arr : Option (List Nat))
    (save_type : Option SaveType) (has_ir : Bool) (model : Model) :
    (is_valid_size (next_power_of_two rom_arr.length) model = false →
      create_emu_state is_valid_size rom_arr save_contents_arr save_type has_ir model
        = Option.none)
    ∧ (∀ s, create_emu_state is_valid_size rom_arr save_contents_arr save_type has_ir model
        = some s → s.rom.length = next_power_of_two rom_arr.length) := by
  have hlen : (rom_arr
      ++ List.replicate (next_power_of_two rom_arr.length - rom_arr.length) 0).length
      = next_power_of_two rom_arr.length := by
    have := le_next_power_of_two rom_arr.length
    simp
    omega
  constructor
  · intro hval
    simp only [create_emu_state, hlen, hval]
    rfl
  · intro s hs
    simp only [create_emu_state, hlen] at hs
    by_cases hval : is_valid_size (next_power_of_two rom_arr.length) model
    · simp only [hval, if_true] at hs
      cases hs
      simpa using hlen
    · simp only [hval, if_false] at hs
      exact Option.noConfusion hs

/-- Witness for C9: with a constraint rejecting every size, building from
an empty ROM yields no session. -/
theorem rom_padding_and_validation_witness :
    create_emu_state (fun _ _ => false) [] Option.none Option.none false Model.Ds
      = Option.none :=
  (rom_padding_and_validation (fun _ _ => false) [] Option.none Option.none false
    Model.Ds).1 rfl

/-- C10: `update_touch` with exactly one coordinate present ends the
touch; the touch position is set to (x, y) only when both coordinates are
present. -/
theorem update_touch_requires_both_coordinates (s : EmuModel) (x y : Nat) :
    ((s.update_touch (some x) Option.none).touch = Option.none)
    ∧ ((s.update_touch Option.none (some y)).touch = Option.none)
    ∧ ((s.update_touch (some x) (some y)).touch = some (x, y)) :=
  ⟨rfl, rfl, rfl⟩

end Dust
